import Mathlib

/-!
# lightstep-tracer-cpp: `src/c++11/tracer.h`

A shallow embedding of the inline code of `tracer.h` (the `Tracer` handle,
`Recorder::Flush`, `JsonEncoder::pendingSize`, `SpanReferenceType`,
`SpanReference`) together with models of the member functions that the header
only declares.  Definitions whose doc comment starts with
"Modelled from the spec:" have no body in `tracer.h`; all others are
translated from the header line by line.
-/

namespace lightstep

/-! ## Strings -/

/-- A `std::string`, as its sequence of characters.  `size()` is `List.length`.
`std::string::size()` never exceeds `max_size()`, which is below
`SIZE_MAX - 3`, so the `size_t` sum `size() + 3` of `pendingSize` is exact and
is modelled in `Nat`. -/
abbrev CppString := List Char

/-! ## JsonEncoder (tracer.h:93-124) -/

/-- The mutable data members of `JsonEncoder` (tracer.h:122-123):
`std::string assembly_; int assembled_;`.  The reference `tracer_` is constant
and the mutex carries no data. -/
structure JsonEncoder where
  /-- Field `std::string assembly_`. -/
  assembly_ : CppString
  /-- Field `int assembled_`. -/
  assembled_ : Int
  deriving DecidableEq, Repr

/-- Member `JsonEncoder::pendingSize() const`, tracer.h:100-105:
```
if (assembled_ < 0) { return 0; }
return assembly_.size() + 3;
```
-/
def JsonEncoder.pendingSize (e : JsonEncoder) : Nat :=
  if e.assembled_ < 0 then 0 else e.assembly_.length + 3

/-- The type `ImplPtr` of `types.h`, a shared pointer to a `TracerImpl`: either
null (`none`) or the address of one implementation object. -/
abbrev ImplPtr (α : Type) := Option α

/-- The class `Tracer`; its only data member is `ImplPtr impl_` (tracer.h:65). -/
structure Tracer (α : Type) where
  /-- Field `ImplPtr impl_`. -/
  impl_ : ImplPtr α
  deriving DecidableEq, Repr

/-- Constructor `explicit Tracer(const ImplPtr &impl) : impl_(impl) { }`,
tracer.h:28. -/
def Tracer.ofImpl {α : Type} (impl : ImplPtr α) : Tracer α :=
  { impl_ := impl }

/-- Constructor `explicit Tracer(std::nullptr_t) { }`, tracer.h:31: `impl_` is
default-constructed, and a default-constructed shared pointer is null. -/
def Tracer.ofNullptr {α : Type} : Tracer α :=
  { impl_ := none }

/-- Member `ImplPtr impl() const { return impl_; }`, tracer.h:44: the returned
pointer and the handle after the call.  The member is `const` and assigns
nothing, so the handle after the call is the handle before it. -/
def Tracer.impl {α : Type} (t : Tracer α) : ImplPtr α × Tracer α :=
  (t.impl_, t)

/-- Modelled from the spec: the static `Tracer::Global()` (declared at
tracer.h:37, no body) reads the process-wide slot.  The argument is the slot;
the result is the returned handle and the slot afterwards. -/
def Tracer.Global {α : Type} (slot : Tracer α) : Tracer α × Tracer α :=
  (slot, slot)

/-- Modelled from the spec: the static `Tracer::InitGlobal(Tracer)` (declared at
tracer.h:41, no body) "sets the global tracer pointer, returns the former
global tracer value" (tracer.h:39-40); spec 4.1 calls it an atomic swap.  The
result is the returned handle and the slot afterwards. -/
def Tracer.InitGlobal {α : Type} (t : Tracer α) (slot : Tracer α) : Tracer α × Tracer α :=
  (slot, t)

/-- The slot after `n` consecutive `Global()` calls. -/
def Tracer.globalReads {α : Type} (n : Nat) (slot : Tracer α) : Tracer α :=
  Nat.iterate (fun s => (Tracer.Global s).2) n slot

/-! ## Recorder (tracer.h:68-91) -/

/-- The type `Duration` of `types.h`: a `std::chrono` duration, held as a signed
count of clock ticks. -/
abbrev Duration := Int

/-- The conversion of `std::chrono::hours(h)` to a `Duration` whose clock has
`ticksPerSecond` ticks in a second (the clock is fixed in `types.h`): an hour
is 3600 seconds. -/
def hoursToDuration (ticksPerSecond : Nat) (h : Int) : Duration :=
  h * 3600 * (ticksPerSecond : Int)

/-- Ticks per second of a nanosecond clock. -/
def nanosecondTicks : Nat := 1000000000

/-- A 64-bit two's complement tick count: the value of `x` after wrapping
modulo `2^64` into `[-2^63, 2^63)`. -/
def wrapInt64 (x : Int) : Int :=
  (x + 2 ^ 63) % 2 ^ 64 - 2 ^ 63

/-- The abstract class `Recorder` over a recorder state `σ` and span records
`ρ`: the two pure virtual members (tracer.h:76, 81).  `FlushWithTimeout`
returns its boolean and the state it leaves. -/
structure Recorder (σ ρ : Type) where
  /-- Member `virtual void RecordSpan(SpanRecord&&) = 0`. -/
  RecordSpan : ρ → σ → σ
  /-- Member `virtual bool FlushWithTimeout(Duration timeout) = 0`. -/
  FlushWithTimeout : Duration → σ → Bool × σ

/-- The argument of the call in `Flush`, `std::chrono::hours(24)` (tracer.h:87),
converted to `Duration`. -/
def Recorder.flushTimeout (ticksPerSecond : Nat) : Duration :=
  hoursToDuration ticksPerSecond 24

/-- The default `virtual void Flush()`, tracer.h:84-90:
```
FlushWithTimeout(std::chrono::hours(24));
```
The boolean is dropped. -/
def Recorder.Flush {σ ρ : Type} (r : Recorder σ ρ) (ticksPerSecond : Nat) (s : σ) : σ :=
  (r.FlushWithTimeout (Recorder.flushTimeout ticksPerSecond) s).2

/-- The recorder `r` with a call log: the state carries the list of the
arguments of every `FlushWithTimeout` call made so far, oldest first. -/
def Recorder.logged {σ ρ : Type} (r : Recorder σ ρ) : Recorder (σ × List Duration) ρ :=
  { RecordSpan := fun span s => (r.RecordSpan span s.1, s.2)
    FlushWithTimeout := fun timeout s =>
      ((r.FlushWithTimeout timeout s.1).1, ((r.FlushWithTimeout timeout s.1).2, s.2 ++ [timeout])) }

/-- A small recorder for concrete runs: the state is the number of buffered
records; a flush with a positive timeout delivers them all and succeeds. -/
def countingRecorder : Recorder Nat Unit :=
  { RecordSpan := fun _ n => n + 1
    FlushWithTimeout := fun timeout n => if 0 < timeout then (true, 0) else (false, n) }

/-! ## SpanReference (tracer.h:126-185) -/

/-- The enumeration `SpanReferenceType`, tracer.h:126-166. -/
inductive SpanReferenceType where
  | ChildOfRef
  | FollowsFromRef
  deriving DecidableEq, Repr

/-- The enumerator values: `ChildOfRef = 1` (tracer.h:139) and
`FollowsFromRef = 2` (tracer.h:165). -/
def SpanReferenceType.toInt : SpanReferenceType → Int
  | .ChildOfRef => 1
  | .FollowsFromRef => 2

/-- The class `SpanReference` over span contexts `κ`; data members
`SpanReferenceType type_; SpanContext referenced_;` (tracer.h:177-178). -/
structure SpanReference (κ : Type) where
  /-- Field `SpanReferenceType type_`. -/
  type_ : SpanReferenceType
  /-- Field `SpanContext referenced_`. -/
  referenced_ : κ
  deriving DecidableEq, Repr

/-- Constructor `SpanReference(SpanReferenceType type, const SpanContext
&referenced) : type_(type), referenced_(referenced) { }`, tracer.h:170-172. -/
def SpanReference.new {κ : Type} (type : SpanReferenceType) (referenced : κ) :
    SpanReference κ :=
  { type_ := type, referenced_ := referenced }

/-- Modelled from the spec: `ChildOf(const SpanContext&)` (declared at
tracer.h:182, no body) creates "a ChildOf-referencing StartSpan option": a
`SpanReference` of kind `ChildOfRef` bound to the context. -/
def ChildOf {κ : Type} (ctx : κ) : SpanReference κ :=
  SpanReference.new SpanReferenceType.ChildOfRef ctx

/-- Modelled from the spec: `FollowsFrom(const SpanContext&)` (declared at
tracer.h:185, no body) creates "a FollowsFrom-referencing StartSpan option": a
`SpanReference` of kind `FollowsFromRef` bound to the context. -/
def FollowsFrom {κ : Type} (ctx : κ) : SpanReference κ :=
  SpanReference.new SpanReferenceType.FollowsFromRef ctx

/-- Modelled from the spec: the span under construction, `SpanImpl` of `span.h`:
its operation name and its reference set, a sequence of (kind, context)
pairs in the order they were added. -/
structure SpanImpl (κ : Type) where
  /-- The operation name given to `StartSpan`. -/
  operation_name : CppString
  /-- The causal edges added so far. -/
  references : List (SpanReferenceType × κ)
  deriving DecidableEq, Repr

/-- Modelled from the spec: `SpanReference::Apply(SpanImpl*)` (declared at
tracer.h:174, no body).  Spec 4.2: applying a reference "appends the (kind,
context) pair to that span's reference set". -/
def SpanReference.Apply {κ : Type} (r : SpanReference κ) (span : SpanImpl κ) : SpanImpl κ :=
  { span with references := span.references ++ [(r.type_, r.referenced_)] }

/-- Modelled from the spec: the span that `Tracer::StartSpan(operation_name,
opts)` (declared at tracer.h:33, no body) builds from reference options.
Spec 4.1: "Each option is applied to the new span in sequence order". -/
def StartSpan {κ : Type} (operation_name : CppString) (opts : List (SpanReference κ)) :
    SpanImpl κ :=
  opts.foldl (fun span opt => opt.Apply span) { operation_name := operation_name, references := [] }

/-! ## Helper lemmas -/

theorem globalReads_eq {α : Type} (n : Nat) (slot : Tracer α) :
    Tracer.globalReads n slot = slot := by
  induction n with
  | zero => rfl
  | succ k ih =>
    have h : Tracer.globalReads (k + 1) slot = Tracer.globalReads k ((Tracer.Global slot).2) := rfl
    rw [h]
    exact ih

/-! ## JsonEncoder::pendingSize -/

/-- C1, as stated, fails: in the state with an empty buffer and `assembled_ = -1`
(no preamble written) `pendingSize()` returns 0, not `assembly_.size() + 3 = 3`. -/
theorem pendingSize_not_always_size_add_three :
    ¬ ∀ e : JsonEncoder, e.pendingSize = e.assembly_.length + 3 := by
  intro h
  have h1 := h { assembly_ := [], assembled_ := -1 }
  simp [JsonEncoder.pendingSize] at h1

/-- C1, amended: whenever the entry counter `assembled_` is non-negative,
`pendingSize()` returns `assembly_.size() + 3`, whatever the buffer holds; when
`assembled_` is negative it returns 0. -/
theorem pendingSize_eq_size_add_three (e : JsonEncoder) :
    (0 ≤ e.assembled_ → e.pendingSize = e.assembly_.length + 3) ∧
      (e.assembled_ < 0 → e.pendingSize = 0) := by
  constructor
  · intro h
    have h1 : ¬ e.assembled_ < 0 := by omega
    simp [JsonEncoder.pendingSize, h1]
  · intro h
    simp [JsonEncoder.pendingSize, h]

/-- The amended C1 at a buffer of five characters: 8 with two entries, 0 with
the counter at -1. -/
theorem pendingSize_eq_size_add_three_witness :
    ((0 : Int) ≤ 2 ∧
        JsonEncoder.pendingSize { assembly_ := ['{', '[', 'a', ',', 'b'], assembled_ := 2 } = 8) ∧
      ((-1 : Int) < 0 ∧
        JsonEncoder.pendingSize { assembly_ := ['{', '[', ']', ' ', '}'], assembled_ := -1 } = 0) :=
  ⟨⟨by decide,
      (pendingSize_eq_size_add_three
        { assembly_ := ['{', '[', 'a', ',', 'b'], assembled_ := 2 }).1 (by decide)⟩,
    ⟨by decide,
      (pendingSize_eq_size_add_three
        { assembly_ := ['{', '[', ']', ' ', '}'], assembled_ := -1 }).2 (by decide)⟩⟩

/-- C10: `pendingSize()` is 0 when `assembled_` is negative, whatever the buffer
holds; it is at least 3 when `assembled_` is non-negative; hence it is 0 if and
only if `assembled_ < 0`. -/
theorem pendingSize_eq_zero_iff (e : JsonEncoder) :
    (e.assembled_ < 0 → e.pendingSize = 0) ∧
      (0 ≤ e.assembled_ → 3 ≤ e.pendingSize) ∧
      (e.pendingSize = 0 ↔ e.assembled_ < 0) := by
  by_cases h : e.assembled_ < 0
  · simp [JsonEncoder.pendingSize, h]
  · have h0 : 0 ≤ e.assembled_ := by omega
    simp [JsonEncoder.pendingSize, h]

/-- The three parts of C10 at concrete encoder states. -/
theorem pendingSize_eq_zero_iff_witness :
    JsonEncoder.pendingSize { assembly_ := ['x', 'y'], assembled_ := -1 } = 0 ∧
      3 ≤ JsonEncoder.pendingSize { assembly_ := [], assembled_ := 0 } ∧
      (JsonEncoder.pendingSize { assembly_ := ['x', 'y'], assembled_ := -7 } = 0 ↔
        (-7 : Int) < 0) :=
  ⟨(pendingSize_eq_zero_iff { assembly_ := ['x', 'y'], assembled_ := -1 }).1 (by decide),
    (pendingSize_eq_zero_iff { assembly_ := [], assembled_ := 0 }).2.1 (by decide),
    (pendingSize_eq_zero_iff { assembly_ := ['x', 'y'], assembled_ := -7 }).2.2⟩

/-! ## JsonEncoder::recordSpan and jsonString -/

/-- C2: for every recorder and every state, the default `Flush()` leaves the
state that `FlushWithTimeout(24 hours)` leaves, and on the recorder with a call
log it adds exactly one entry to the log, the duration of 24 hours. -/
theorem Flush_eq_FlushWithTimeout_24h {σ ρ : Type} (r : Recorder σ ρ) (ticksPerSecond : Nat)
    (s : σ) (log : List Duration) :
    r.Flush ticksPerSecond s = (r.FlushWithTimeout (hoursToDuration ticksPerSecond 24) s).2 ∧
      r.logged.Flush ticksPerSecond (s, log) =
        ((r.FlushWithTimeout (hoursToDuration ticksPerSecond 24) s).2,
          log ++ [hoursToDuration ticksPerSecond 24]) ∧
      hoursToDuration ticksPerSecond 24 = 24 * 3600 * (ticksPerSecond : Int) := by
  refine ⟨rfl, rfl, rfl⟩

/-- C9: on a nanosecond clock, the default `Flush()` of every recorder makes one
`FlushWithTimeout` call whose timeout `d` is 24 hours = 86,400 s =
86,400,000,000,000 ticks; `d` is positive, fits a signed 64-bit tick count, is
strictly below `2^63 - 1`, and adding `d` to a 64-bit time point below
`2^63 - 1 - 86,400,000,000,000` does not wrap. -/
theorem Flush_timeout_nanoseconds_no_overflow {σ ρ : Type} (r : Recorder σ ρ) (s : σ)
    (log : List Duration) :
    ∃ d : Duration,
      r.logged.Flush nanosecondTicks (s, log) = ((r.FlushWithTimeout d s).2, log ++ [d]) ∧
      r.Flush nanosecondTicks s = (r.FlushWithTimeout d s).2 ∧
      d = 86400 * 1000000000 ∧
      d = 86400000000000 ∧
      0 < d ∧
      wrapInt64 d = d ∧
      d < 2 ^ 63 - 1 ∧
      (∀ t : Int, -2 ^ 63 ≤ t → t < 2 ^ 63 - 1 - 86400000000000 →
        wrapInt64 (t + d) = t + d) := by
  have hval : hoursToDuration nanosecondTicks 24 = 86400000000000 := by
    simp [hoursToDuration, nanosecondTicks]
  refine ⟨hoursToDuration nanosecondTicks 24, rfl, rfl, ?_, hval, ?_, ?_, ?_, ?_⟩
  · rw [hval]; norm_num
  · rw [hval]; norm_num
  · rw [hval]
    simp only [wrapInt64]
    norm_num
  · rw [hval]; norm_num
  · intro t hlo hhi
    rw [hval]
    simp only [wrapInt64]
    norm_num at hlo hhi ⊢
    omega

/-- C9 on the counting recorder with five buffered records and an empty log:
`Flush()` logs one call with 86,400,000,000,000 ticks, and a time point of
1,700,000,000 s since the epoch, in nanoseconds, plus that timeout does not
wrap. -/
theorem Flush_timeout_nanoseconds_no_overflow_witness :
    (-2 ^ 63 ≤ (1700000000000000000 : Int) ∧
        (1700000000000000000 : Int) < 2 ^ 63 - 1 - 86400000000000) ∧
      (countingRecorder.logged.Flush nanosecondTicks (5, [])).2 = [86400000000000] ∧
      wrapInt64 (1700000000000000000 + 86400000000000) =
        1700000000000000000 + 86400000000000 := by
  obtain ⟨d, hlog, _, _, hd, _, _, _, hadd⟩ :=
    Flush_timeout_nanoseconds_no_overflow countingRecorder 5 []
  subst hd
  refine ⟨⟨by norm_num, by norm_num⟩, ?_, hadd 1700000000000000000 (by norm_num) (by norm_num)⟩
  rw [hlog]
  rfl

/-! ## Tracer -/

/-- C7: a handle built from an implementation pointer `p` reports `p`; the
no-op handle reports the null pointer; every handle refers to no
implementation or to exactly one; and `impl()` leaves the handle as it was. -/
theorem Tracer_impl_of_constructor {α : Type} :
    (∀ p : ImplPtr α, (Tracer.ofImpl p).impl.1 = p) ∧
      (Tracer.ofNullptr : Tracer α).impl.1 = none ∧
      (∀ t : Tracer α, t.impl.1 = none ∨ ∃! a : α, t.impl.1 = some a) ∧
      (∀ t : Tracer α, t.impl.2 = t) := by
  refine ⟨fun _ => rfl, rfl, ?_, fun _ => rfl⟩
  intro t
  cases h : t.impl.1 with
  | none => exact Or.inl rfl
  | some a => exact Or.inr ⟨a, rfl, fun b hb => (Option.some.inj hb).symm⟩

/-- C5: with tracer `T1` in the global slot, `InitGlobal(T2)` returns `T1`;
after it every `Global()` call, however many are made, returns `T2`; and
`Global()` leaves the slot as it is. -/
theorem InitGlobal_returns_previous_and_installs {α : Type} (T1 T2 : Tracer α) :
    (Tracer.InitGlobal T2 T1).1 = T1 ∧
      (∀ n : Nat, (Tracer.Global (Tracer.globalReads n (Tracer.InitGlobal T2 T1).2)).1 = T2) ∧
      (∀ slot : Tracer α, (Tracer.Global slot).2 = slot) := by
  refine ⟨rfl, ?_, fun _ => rfl⟩
  intro n
  rw [globalReads_eq]
  rfl

/-! ## SpanReference -/

/-- C6: `ChildOf(A)` is a reference of kind `ChildOfRef` bound to `A` and
`FollowsFrom(B)` one of kind `FollowsFromRef` bound to `B`; applying a
reference appends its (kind, context) pair and keeps every earlier reference;
a span started with `{ChildOf(A), FollowsFrom(B)}` holds both edges; the kinds
differ, `ChildOfRef = 1` and `FollowsFromRef = 2`. -/
theorem ChildOf_FollowsFrom_accumulate {κ : Type} (A B : κ) (name : CppString) :
    ((ChildOf A).type_ = SpanReferenceType.ChildOfRef ∧ (ChildOf A).referenced_ = A) ∧
      ((FollowsFrom B).type_ = SpanReferenceType.FollowsFromRef ∧
        (FollowsFrom B).referenced_ = B) ∧
      (∀ (r : SpanReference κ) (span : SpanImpl κ),
        (r.Apply span).references = span.references ++ [(r.type_, r.referenced_)] ∧
          span.references ⊆ (r.Apply span).references) ∧
      (StartSpan name [ChildOf A, FollowsFrom B]).references =
        [(SpanReferenceType.ChildOfRef, A), (SpanReferenceType.FollowsFromRef, B)] ∧
      (SpanReferenceType.ChildOfRef, A) ∈ (StartSpan name [ChildOf A, FollowsFrom B]).references ∧
      (SpanReferenceType.FollowsFromRef, B) ∈
        (StartSpan name [ChildOf A, FollowsFrom B]).references ∧
      SpanReferenceType.ChildOfRef.toInt = 1 ∧
      SpanReferenceType.FollowsFromRef.toInt = 2 ∧
      SpanReferenceType.ChildOfRef ≠ SpanReferenceType.FollowsFromRef := by
  refine ⟨⟨rfl, rfl⟩, ⟨rfl, rfl⟩, ?_, rfl, ?_, ?_, rfl, rfl, by decide⟩
  · intro r span
    exact ⟨rfl, by simp [SpanReference.Apply]⟩
  · simp [StartSpan, SpanReference.Apply, ChildOf, FollowsFrom, SpanReference.new]
  · simp [StartSpan, SpanReference.Apply, ChildOf, FollowsFrom, SpanReference.new]

end lightstep
